import Mathlib

/-!
Verification of the SwingPal graph-generation pipeline
(src/generate_graphs.py): CSV parsing, net acceleration, finite-difference
derivatives (net jerk, angular rates), time normalization, and the
exit-status behaviour of the command-line entry point.

Rows are modelled as lists of fields, a field being `some x` when its text
parses as a floating-point number and `none` otherwise.  Numeric values are
real numbers.
-/

namespace Swingpal

/-- One field of a CSV row: `some x` when the text parses as a float with
value x, `none` when float() would fail. -/
abbrev Field := Option ℝ

/-- One raw CSV line, already split into fields by the csv reader. -/
abbrev Row := List Field

/-- One kept sample: the seven numeric fields of a valid row, with time
already converted to seconds. -/
structure Sample where
  time : ℝ
  yaw : ℝ
  pitch : ℝ
  roll : ℝ
  accel_x : ℝ
  accel_y : ℝ
  accel_z : ℝ

/-- The seven aligned series returned by parse_csv. -/
structure ParsedData where
  times : List ℝ
  yaws : List ℝ
  pitches : List ℝ
  rolls : List ℝ
  accel_x : List ℝ
  accel_y : List ℝ
  accel_z : List ℝ

/-- Loop body of parse_csv for a single row: the row needs at least 7
fields, then fields 0..6 are parsed in order inside one try block, so any
failure drops the whole row; the first field is divided by 1000
(milliseconds to seconds). -/
noncomputable def parseRow (row : Row) : Option Sample :=
  if 7 ≤ row.length then
    (row.getD 0 none).bind fun time_ms =>
    (row.getD 1 none).bind fun yaw =>
    (row.getD 2 none).bind fun pitch =>
    (row.getD 3 none).bind fun roll =>
    (row.getD 4 none).bind fun ax =>
    (row.getD 5 none).bind fun ay =>
    (row.getD 6 none).bind fun az =>
    some ⟨time_ms / 1000, yaw, pitch, roll, ax, ay, az⟩
  else none

/-- parse_csv from the source: skip the header line, run the loop body on
every remaining row, and collect the seven aligned arrays. -/
noncomputable def parse_csv (lines : List Row) : ParsedData :=
  let samples := (lines.drop 1).filterMap parseRow
  ⟨samples.map Sample.time, samples.map Sample.yaw, samples.map Sample.pitch,
   samples.map Sample.roll, samples.map Sample.accel_x,
   samples.map Sample.accel_y, samples.map Sample.accel_z⟩

/-- The rows that parse_csv keeps, in input order. -/
noncomputable def keptRows (lines : List Row) : List Row :=
  (lines.drop 1).filter fun r => (parseRow r).isSome

/-- np.diff: entry i is xs[i+1] - xs[i]; the output is one shorter than the
input. -/
noncomputable def diff (xs : List ℝ) : List ℝ :=
  List.zipWith (fun a b => b - a) xs xs.tail

/-- calculate_net_acceleration from the source:
sqrt(ax ** 2 + ay ** 2 + az ** 2), elementwise. -/
noncomputable def calculate_net_acceleration (ax ay az : List ℝ) : List ℝ :=
  List.zipWith3 (fun x y z => Real.sqrt (x ^ 2 + y ^ 2 + z ^ 2)) ax ay az

/-- calculate_net_jerk from the source: np.diff(net_acc) / np.diff(times),
with time axis times[1:]. -/
noncomputable def calculate_net_jerk (net_acc times : List ℝ) :
    List ℝ × List ℝ :=
  (List.zipWith (fun a b => a / b) (diff net_acc) (diff times), times.tail)

/-- calculate_angular_velocities from the source: the same finite
difference quotient applied to yaw, pitch and roll, with time axis
times[1:]. -/
noncomputable def calculate_angular_velocities
    (yaws pitches rolls times : List ℝ) :
    List ℝ × List ℝ × List ℝ × List ℝ :=
  (List.zipWith (fun a b => a / b) (diff yaws) (diff times),
   List.zipWith (fun a b => a / b) (diff pitches) (diff times),
   List.zipWith (fun a b => a / b) (diff rolls) (diff times),
   times.tail)

/-- Everything generate_graphs hands to the plotting calls. -/
structure ChartData where
  times_norm : List ℝ
  net_acc : List ℝ
  jerk : List ℝ
  jerk_times_norm : List ℝ
  accel_x : List ℝ
  accel_y : List ℝ
  accel_z : List ℝ
  yaws : List ℝ
  pitches : List ℝ
  rolls : List ℝ
  yaw_rate : List ℝ
  pitch_rate : List ℝ
  roll_rate : List ℝ
  deriv_times_norm : List ℝ

/-- generate_graphs from the source, up to the rendering collaborator:
parse, fail (return False, modelled none) when no valid data remains,
otherwise compute the derived series, normalize every time axis by the
first sample time, and hand the arrays to the renderer (modelled some). -/
noncomputable def generate_graphs (lines : List Row) : Option ChartData :=
  let p := parse_csv lines
  if p.times.length = 0 then
    none
  else
    let net_acc := calculate_net_acceleration p.accel_x p.accel_y p.accel_z
    let jerk_pair := calculate_net_jerk net_acc p.times
    let ang := calculate_angular_velocities p.yaws p.pitches p.rolls p.times
    let start_time := p.times.headI
    some
      { times_norm := p.times.map fun t => t - start_time
        net_acc := net_acc
        jerk := jerk_pair.1
        jerk_times_norm := jerk_pair.2.map fun t => t - start_time
        accel_x := p.accel_x
        accel_y := p.accel_y
        accel_z := p.accel_z
        yaws := p.yaws
        pitches := p.pitches
        rolls := p.rolls
        yaw_rate := ang.1
        pitch_rate := ang.2.1
        roll_rate := ang.2.2.1
        deriv_times_norm := ang.2.2.2.map fun t => t - start_time }

/-- Outcome of one invocation of the script. -/
inductive RunResult where
  | fileNotFound : RunResult
  | emptyData : RunResult
  | success : ChartData → RunResult

/-- The main block: exit 1 when the input path does not exist (before the
file is ever read), otherwise run generate_graphs and exit with 0 exactly
when it returned True. -/
noncomputable def run (fileExists : Bool) (lines : List Row) : RunResult :=
  if fileExists then
    match generate_graphs lines with
    | none => RunResult.emptyData
    | some c => RunResult.success c
  else
    RunResult.fileNotFound

/-- Process exit status for each outcome. -/
def exitCode : RunResult → ℕ
  | RunResult.fileNotFound => 1
  | RunResult.emptyData => 1
  | RunResult.success _ => 0

/-- Whether an output file was written: savefig runs only on the success
path, after all computation. -/
def outputWritten : RunResult → Bool
  | RunResult.fileNotFound => false
  | RunResult.emptyData => false
  | RunResult.success _ => true

/-! ### Supporting lemmas -/

lemma diff_length (xs : List ℝ) : (diff xs).length = xs.length - 1 := by
  simp [diff]

lemma getElem?_eq_some_getD {α : Type} [Inhabited α] {l : List α} {i : ℕ}
    (h : i < l.length) (d : α) : l[i]? = some (l.getD i d) := by
  rw [List.getElem?_eq_getElem h, List.getD_eq_getElem l d h]

lemma diff_getElem? (xs : List ℝ) (i : ℕ) (h : i + 1 < xs.length) :
    (diff xs)[i]? = some (xs.getD (i + 1) 0 - xs.getD i 0) := by
  have h0 : i < xs.length := by omega
  have ht : i < xs.tail.length := by
    simp [List.length_tail]; omega
  rw [diff, List.getElem?_zipWith', getElem?_eq_some_getD h0 0]
  have htl : xs.tail[i]? = some (xs.getD (i + 1) 0) := by
    rw [getElem?_eq_some_getD ht 0]
    cases xs with
    | nil => simp at h0
    | cons a as => simp [List.getD]
  rw [htl]
  simp

lemma zipWith3_eq_zipWith (f : ℝ → ℝ → ℝ → ℝ) (as bs cs : List ℝ) :
    List.zipWith3 f as bs cs =
      List.zipWith (fun p c => f p.1 p.2 c)
        (List.zipWith Prod.mk as bs) cs :=
  (List.zipWith_zipWith_left (fun p c => f p.1 p.2 c) Prod.mk as bs cs).symm

lemma zipWith3_length (f : ℝ → ℝ → ℝ → ℝ) (as bs cs : List ℝ) :
    (List.zipWith3 f as bs cs).length =
      min as.length (min bs.length cs.length) := by
  rw [zipWith3_eq_zipWith]
  simp only [List.length_zipWith]
  omega

lemma zipWith3_getElem? (f : ℝ → ℝ → ℝ → ℝ) (as bs cs : List ℝ) (i : ℕ)
    (ha : i < as.length) (hb : i < bs.length) (hc : i < cs.length) :
    (List.zipWith3 f as bs cs)[i]? =
      some (f (as.getD i 0) (bs.getD i 0) (cs.getD i 0)) := by
  rw [zipWith3_eq_zipWith, List.getElem?_zipWith', List.getElem?_zipWith',
    getElem?_eq_some_getD ha 0, getElem?_eq_some_getD hb 0,
    getElem?_eq_some_getD hc 0]
  simp

lemma mem_zipWith3_nonneg (ax ay az : List ℝ) (x : ℝ)
    (hx : x ∈ calculate_net_acceleration ax ay az) : 0 ≤ x := by
  obtain ⟨i, hi, hget⟩ := List.getElem_of_mem hx
  have hbounds : i < ax.length ∧ i < ay.length ∧ i < az.length := by
    rw [calculate_net_acceleration, zipWith3_length] at hi
    omega
  have hsome : (calculate_net_acceleration ax ay az)[i]? = some x := by
    rw [List.getElem?_eq_getElem hi, hget]
  rw [calculate_net_acceleration,
    zipWith3_getElem? _ ax ay az i hbounds.1 hbounds.2.1 hbounds.2.2]
    at hsome
  have hx2 := Option.some.inj hsome
  rw [← hx2]
  exact Real.sqrt_nonneg _

lemma tail_getElem? (xs : List ℝ) (i : ℕ) (h : i + 1 < xs.length) :
    xs.tail[i]? = some (xs.getD (i + 1) 0) := by
  have ht : i < xs.tail.length := by simp [List.length_tail]; omega
  rw [getElem?_eq_some_getD ht 0]
  cases xs with
  | nil => simp at h
  | cons a as => simp [List.getD]

lemma divdiff_length (xs times : List ℝ) (h : xs.length = times.length) :
    (List.zipWith (fun a b => a / b) (diff xs) (diff times)).length =
      times.length - 1 := by
  simp [List.length_zipWith, diff_length, h]

lemma divdiff_getElem? (xs times : List ℝ) (i : ℕ)
    (hx : i + 1 < xs.length) (ht : i + 1 < times.length) :
    (List.zipWith (fun a b => a / b) (diff xs) (diff times))[i]? =
      some ((xs.getD (i + 1) 0 - xs.getD i 0) /
        (times.getD (i + 1) 0 - times.getD i 0)) := by
  rw [List.getElem?_zipWith', diff_getElem? xs i hx, diff_getElem? times i ht]
  simp

lemma headI_eq_getD (xs : List ℝ) : xs.headI = xs.getD 0 0 := by
  cases xs with
  | nil => rfl
  | cons a as => simp [List.headI, List.getD]

lemma length_filterMap_eq_countP (rs : List Row) :
    (rs.filterMap parseRow).length =
      rs.countP fun r => (parseRow r).isSome := by
  induction rs with
  | nil => simp
  | cons r rs ih =>
    cases hr : parseRow r <;>
      simp [List.filterMap_cons, List.countP_cons, hr, ih]

lemma filterMap_length_of_all_isSome (rs : List Row)
    (h : ∀ r ∈ rs, (parseRow r).isSome) :
    (rs.filterMap parseRow).length = rs.length := by
  induction rs with
  | nil => simp
  | cons r rs ih =>
    have hr := h r (List.Mem.head _)
    rcases hs : parseRow r with _ | s
    · rw [hs] at hr; simp at hr
    · simp [List.filterMap_cons, hs,
        ih fun r hm => h r (List.Mem.tail _ hm)]

lemma parseRow_isSome_iff (row : Row) :
    (parseRow row).isSome ↔ 7 ≤ row.length ∧
      (row.getD 0 none).isSome ∧ (row.getD 1 none).isSome ∧
      (row.getD 2 none).isSome ∧ (row.getD 3 none).isSome ∧
      (row.getD 4 none).isSome ∧ (row.getD 5 none).isSome ∧
      (row.getD 6 none).isSome := by
  rw [parseRow]
  split
  · rename_i h7
    cases h0 : row.getD 0 none <;>
      cases h1 : row.getD 1 none <;>
      cases h2 : row.getD 2 none <;>
      cases h3 : row.getD 3 none <;>
      cases h4 : row.getD 4 none <;>
      cases h5 : row.getD 5 none <;>
      cases h6 : row.getD 6 none <;>
      simp [h0, h1, h2, h3, h4, h5, h6, h7]
  · rename_i h7
    simp [h7]

lemma parseRow_fields (row : Row) (s : Sample) (h : parseRow row = some s) :
    row.getD 0 none = some (s.time * 1000) ∧
    row.getD 1 none = some s.yaw ∧
    row.getD 2 none = some s.pitch ∧
    row.getD 3 none = some s.roll ∧
    row.getD 4 none = some s.accel_x ∧
    row.getD 5 none = some s.accel_y ∧
    row.getD 6 none = some s.accel_z := by
  rw [parseRow] at h
  split at h
  · cases h0 : row.getD 0 none <;> rw [h0] at h <;>
      cases h1 : row.getD 1 none <;> rw [h1] at h <;>
      cases h2 : row.getD 2 none <;> rw [h2] at h <;>
      cases h3 : row.getD 3 none <;> rw [h3] at h <;>
      cases h4 : row.getD 4 none <;> rw [h4] at h <;>
      cases h5 : row.getD 5 none <;> rw [h5] at h <;>
      cases h6 : row.getD 6 none <;> rw [h6] at h <;>
      simp only [Option.some_bind, Option.none_bind,
        Option.some.injEq, reduceCtorEq] at h
    case some.some.some.some.some.some.some =>
      subst h
      norm_num
  · simp at h

lemma filterMap_filter_getElem (rs : List Row) (i : ℕ)
    (h : i < (rs.filterMap parseRow).length) :
    ∃ row s, (rs.filter fun r => (parseRow r).isSome)[i]? = some row ∧
      parseRow row = some s ∧ (rs.filterMap parseRow)[i]? = some s := by
  induction rs generalizing i with
  | nil => simp at h
  | cons r rs ih =>
    rcases hr : parseRow r with _ | s0
    · have hfm : (r :: rs).filterMap parseRow = rs.filterMap parseRow := by
        simp [List.filterMap_cons, hr]
      have hfl : ((r :: rs).filter fun r => (parseRow r).isSome) =
          rs.filter fun r => (parseRow r).isSome := by
        simp [List.filter_cons, hr]
      rw [hfm] at h ⊢
      rw [hfl]
      exact ih i h
    · have hfm : (r :: rs).filterMap parseRow =
          s0 :: rs.filterMap parseRow := by
        simp [List.filterMap_cons, hr]
      have hfl : ((r :: rs).filter fun r => (parseRow r).isSome) =
          r :: rs.filter fun r => (parseRow r).isSome := by
        simp [List.filter_cons, hr]
      rw [hfm] at h ⊢
      rw [hfl]
      cases i with
      | zero => exact ⟨r, s0, by simp, hr, by simp⟩
      | succ j =>
        obtain ⟨row, s, h1, h2, h3⟩ := ih j (by simpa using h)
        exact ⟨row, s, by simpa using h1, h2, by simpa using h3⟩

/-! ### Claim theorems -/

/-- C1: for a dataset of N >= 2 samples with pairwise-distinct adjacent
timestamps, net jerk and the three angular rates are the first-order
finite difference of the respective series divided by the finite
difference of time; every output has length N - 1 and the time axis entry
i is times[i + 1] (right-edge alignment). -/
theorem finite_difference_spec (net_acc yaws pitches rolls times : List ℝ)
    (N : ℕ) (htimes : times.length = N) (hacc : net_acc.length = N)
    (hyaw : yaws.length = N) (hpitch : pitches.length = N)
    (hroll : rolls.length = N) (hN : 2 ≤ N)
    (hdist : ∀ i, i + 1 < N → times.getD i 0 ≠ times.getD (i + 1) 0) :
    (calculate_net_jerk net_acc times).1.length = N - 1 ∧
    (calculate_net_jerk net_acc times).2.length = N - 1 ∧
    (calculate_angular_velocities yaws pitches rolls times).1.length = N - 1 ∧
    (calculate_angular_velocities yaws pitches rolls times).2.1.length
      = N - 1 ∧
    (calculate_angular_velocities yaws pitches rolls times).2.2.1.length
      = N - 1 ∧
    (calculate_angular_velocities yaws pitches rolls times).2.2.2.length
      = N - 1 ∧
    (∀ i, i + 1 < N →
      (calculate_net_jerk net_acc times).1[i]? =
        some ((net_acc.getD (i + 1) 0 - net_acc.getD i 0) /
          (times.getD (i + 1) 0 - times.getD i 0)) ∧
      (calculate_net_jerk net_acc times).2[i]? =
        some (times.getD (i + 1) 0) ∧
      (calculate_angular_velocities yaws pitches rolls times).1[i]? =
        some ((yaws.getD (i + 1) 0 - yaws.getD i 0) /
          (times.getD (i + 1) 0 - times.getD i 0)) ∧
      (calculate_angular_velocities yaws pitches rolls times).2.1[i]? =
        some ((pitches.getD (i + 1) 0 - pitches.getD i 0) /
          (times.getD (i + 1) 0 - times.getD i 0)) ∧
      (calculate_angular_velocities yaws pitches rolls times).2.2.1[i]? =
        some ((rolls.getD (i + 1) 0 - rolls.getD i 0) /
          (times.getD (i + 1) 0 - times.getD i 0)) ∧
      (calculate_angular_velocities yaws pitches rolls times).2.2.2[i]? =
        some (times.getD (i + 1) 0)) := by
  refine ⟨?_, ?_, ?_, ?_, ?_, ?_, ?_⟩
  · rw [calculate_net_jerk]; rw [divdiff_length _ _ (hacc.trans htimes.symm)]
    omega
  · simp [calculate_net_jerk, List.length_tail, htimes]
  · rw [calculate_angular_velocities]
    rw [divdiff_length _ _ (hyaw.trans htimes.symm)]; omega
  · rw [calculate_angular_velocities]
    rw [divdiff_length _ _ (hpitch.trans htimes.symm)]; omega
  · rw [calculate_angular_velocities]
    rw [divdiff_length _ _ (hroll.trans htimes.symm)]; omega
  · simp [calculate_angular_velocities, List.length_tail, htimes]
  · intro i hi
    have hit : i + 1 < times.length := by omega
    refine ⟨?_, ?_, ?_, ?_, ?_, ?_⟩
    · exact divdiff_getElem? net_acc times i (by omega) hit
    · exact tail_getElem? times i hit
    · exact divdiff_getElem? yaws times i (by omega) hit
    · exact divdiff_getElem? pitches times i (by omega) hit
    · exact divdiff_getElem? rolls times i (by omega) hit
    · exact tail_getElem? times i hit

/-- Witness for C1 on the concrete dataset net_acc = [1, 3],
yaws = pitches = rolls = [0, 90], times = [0, 1]. -/
theorem finite_difference_spec_witness :
    (calculate_net_jerk [1, 3] [0, 1]).1[0]? =
      some ((((3:ℝ) - 1)) / ((1:ℝ) - 0)) := by
  have h := finite_difference_spec [1, 3] [0, 90] [0, 90] [0, 90] [0, 1] 2
    rfl rfl rfl rfl rfl (by norm_num)
    (by
      intro i hi
      have hi0 : i = 0 := by omega
      subst hi0
      simp)
  have h2 := (h.2.2.2.2.2.2 0 (by norm_num)).1
  simpa using h2

/-- C2: net acceleration is the elementwise Euclidean norm of the three
acceleration channels and has the same length N as the inputs. -/
theorem net_acceleration_spec (ax ay az : List ℝ) (N : ℕ)
    (hx : ax.length = N) (hy : ay.length = N) (hz : az.length = N) :
    (calculate_net_acceleration ax ay az).length = N ∧
    ∀ i, i < N →
      (calculate_net_acceleration ax ay az)[i]? =
        some (Real.sqrt
          (ax.getD i 0 ^ 2 + ay.getD i 0 ^ 2 + az.getD i 0 ^ 2)) := by
  constructor
  · rw [calculate_net_acceleration, zipWith3_length, hx, hy, hz]
    omega
  · intro i hi
    exact zipWith3_getElem? _ ax ay az i (by omega) (by omega) (by omega)

/-- Witness for C2 on ax = [3], ay = [4], az = [0]. -/
theorem net_acceleration_spec_witness :
    (calculate_net_acceleration [3] [4] [0])[0]? =
      some (Real.sqrt ((3:ℝ) ^ 2 + (4:ℝ) ^ 2 + (0:ℝ) ^ 2)) := by
  have h := net_acceleration_spec [3] [4] [0] 1 rfl rfl rfl
  simpa using h.2 0 (by norm_num)

/-- C9: every entry of the net acceleration is non-negative. -/
theorem net_acceleration_nonneg (ax ay az : List ℝ) :
    ∀ x ∈ calculate_net_acceleration ax ay az, 0 ≤ x := by
  intro x hx
  exact mem_zipWith3_nonneg ax ay az x hx

/-- Witness for C9 on ax = [1], ay = [2], az = [2]. -/
theorem net_acceleration_nonneg_witness :
    (0:ℝ) ≤ Real.sqrt ((1:ℝ) ^ 2 + (2:ℝ) ^ 2 + (2:ℝ) ^ 2) := by
  exact net_acceleration_nonneg [1] [2] [2] _ (List.Mem.head _)

/-- C10: the time axis returned with net jerk and the one returned with
the angular rates are the same list, namely times[1:]. -/
theorem deriv_time_axes_identical (net_acc yaws pitches rolls times :
    List ℝ) :
    (calculate_net_jerk net_acc times).2 =
      (calculate_angular_velocities yaws pitches rolls times).2.2.2 ∧
    (calculate_net_jerk net_acc times).2 = times.tail := by
  exact ⟨rfl, rfl⟩

/-- C8: with two adjacent samples sharing a timestamp, the derivative
computations are not guarded: the full-length outputs are still produced
and entry i is the literal quotient whose denominator is the zero time
difference. -/
theorem unguarded_division_spec (net_acc yaws pitches rolls times : List ℝ)
    (i : ℕ) (hacc : net_acc.length = times.length)
    (hyaw : yaws.length = times.length)
    (hpitch : pitches.length = times.length)
    (hroll : rolls.length = times.length)
    (hi : i + 1 < times.length)
    (heq : times.getD i 0 = times.getD (i + 1) 0) :
    times.getD (i + 1) 0 - times.getD i 0 = 0 ∧
    (calculate_net_jerk net_acc times).1.length = times.length - 1 ∧
    (calculate_net_jerk net_acc times).1[i]? =
      some ((net_acc.getD (i + 1) 0 - net_acc.getD i 0) /
        (times.getD (i + 1) 0 - times.getD i 0)) ∧
    (calculate_angular_velocities yaws pitches rolls times).1.length =
      times.length - 1 ∧
    (calculate_angular_velocities yaws pitches rolls times).1[i]? =
      some ((yaws.getD (i + 1) 0 - yaws.getD i 0) /
        (times.getD (i + 1) 0 - times.getD i 0)) ∧
    (calculate_angular_velocities yaws pitches rolls times).2.1[i]? =
      some ((pitches.getD (i + 1) 0 - pitches.getD i 0) /
        (times.getD (i + 1) 0 - times.getD i 0)) ∧
    (calculate_angular_velocities yaws pitches rolls times).2.2.1[i]? =
      some ((rolls.getD (i + 1) 0 - rolls.getD i 0) /
        (times.getD (i + 1) 0 - times.getD i 0)) := by
  refine ⟨by rw [heq]; ring, ?_, ?_, ?_, ?_, ?_, ?_⟩
  · exact divdiff_length net_acc times hacc
  · exact divdiff_getElem? net_acc times i (by omega) hi
  · exact divdiff_length yaws times hyaw
  · exact divdiff_getElem? yaws times i (by omega) hi
  · exact divdiff_getElem? pitches times i (by omega) hi
  · exact divdiff_getElem? rolls times i (by omega) hi

/-- Witness for C8 on times = [1, 1] (duplicate timestamp),
net_acc = [2, 5]. -/
theorem unguarded_division_spec_witness :
    (calculate_net_jerk [2, 5] [1, 1]).1[0]? =
      some (((5:ℝ) - 2) / ((1:ℝ) - 1)) := by
  have h := unguarded_division_spec [2, 5] [7, 8] [7, 8] [7, 8] [1, 1] 0
    rfl rfl rfl rfl (by norm_num) (by simp)
  simpa using h.2.2.1

set_option maxRecDepth 4000 in
/-- C3: all three chart time axes are shifted by the same value, the first
valid sample time times[0] (not by each axis's own first element), and the
first entry of the sample-aligned axis becomes exactly 0. -/
theorem time_normalization_spec (lines : List Row)
    (h : 1 ≤ (parse_csv lines).times.length) :
    (generate_graphs lines).map ChartData.times_norm =
      some ((parse_csv lines).times.map fun t =>
        t - (parse_csv lines).times.getD 0 0) ∧
    (generate_graphs lines).map ChartData.jerk_times_norm =
      some ((parse_csv lines).times.tail.map fun t =>
        t - (parse_csv lines).times.getD 0 0) ∧
    (generate_graphs lines).map ChartData.deriv_times_norm =
      some ((parse_csv lines).times.tail.map fun t =>
        t - (parse_csv lines).times.getD 0 0) ∧
    ((generate_graphs lines).map fun c => c.times_norm[0]?) =
      some (some 0) := by
  have hne : ¬ (parse_csv lines).times.length = 0 := by omega
  have hg : generate_graphs lines = some
      { times_norm := (parse_csv lines).times.map fun t =>
          t - (parse_csv lines).times.headI
        net_acc := calculate_net_acceleration (parse_csv lines).accel_x
          (parse_csv lines).accel_y (parse_csv lines).accel_z
        jerk := (calculate_net_jerk (calculate_net_acceleration
          (parse_csv lines).accel_x (parse_csv lines).accel_y
          (parse_csv lines).accel_z) (parse_csv lines).times).1
        jerk_times_norm := ((calculate_net_jerk
          (calculate_net_acceleration (parse_csv lines).accel_x
            (parse_csv lines).accel_y (parse_csv lines).accel_z)
          (parse_csv lines).times).2).map fun t =>
            t - (parse_csv lines).times.headI
        accel_x := (parse_csv lines).accel_x
        accel_y := (parse_csv lines).accel_y
        accel_z := (parse_csv lines).accel_z
        yaws := (parse_csv lines).yaws
        pitches := (parse_csv lines).pitches
        rolls := (parse_csv lines).rolls
        yaw_rate := (calculate_angular_velocities (parse_csv lines).yaws
          (parse_csv lines).pitches (parse_csv lines).rolls
          (parse_csv lines).times).1
        pitch_rate := (calculate_angular_velocities (parse_csv lines).yaws
          (parse_csv lines).pitches (parse_csv lines).rolls
          (parse_csv lines).times).2.1
        roll_rate := (calculate_angular_velocities (parse_csv lines).yaws
          (parse_csv lines).pitches (parse_csv lines).rolls
          (parse_csv lines).times).2.2.1
        deriv_times_norm := ((calculate_angular_velocities
          (parse_csv lines).yaws (parse_csv lines).pitches
          (parse_csv lines).rolls (parse_csv lines).times).2.2.2).map
            fun t => t - (parse_csv lines).times.headI } := by
    simp only [generate_graphs]
    rw [if_neg hne]
  refine ⟨?_, ?_, ?_, ?_⟩
  · rw [hg, headI_eq_getD]
    rfl
  · rw [hg, headI_eq_getD]
    rfl
  · rw [hg, headI_eq_getD]
    rfl
  · rw [hg]
    have h0 : (parse_csv lines).times[0]? =
        some ((parse_csv lines).times.getD 0 0) :=
      getElem?_eq_some_getD (by omega) 0
    simp only [Option.map_some']
    rw [Option.some.injEq, List.getElem?_map, h0, headI_eq_getD]
    simp

/-- Witness for C3 on a header line followed by one valid row. -/
theorem time_normalization_spec_witness :
    ((generate_graphs
        [[none, none, none, none, none, none, none],
         [some 2000, some 1, some 2, some 3, some 4, some 5, some 6]]).map
      fun c => c.times_norm[0]?) = some (some 0) := by
  have h := time_normalization_spec
    [[none, none, none, none, none, none, none],
     [some 2000, some 1, some 2, some 3, some 4, some 5, some 6]]
    (by simp [parse_csv, parseRow])
  exact h.2.2.2

/-- C4: the parser skips the first line; a later row is kept exactly when
it has at least 7 fields that all parse as floats in positions 0..6; the
stored time is the raw first field divided by 1000 and the other six
fields are stored unconverted; skipped rows do not stop processing, so one
malformed row among valid rows costs exactly one sample. -/
theorem parse_csv_row_filtering (hdr hdr2 row : Row)
    (rows pre post : List Row) :
    (parse_csv (hdr :: rows) = parse_csv (hdr2 :: rows)) ∧
    ((parseRow row).isSome ↔ 7 ≤ row.length ∧
      ∀ j, j < 7 → (row.getD j none).isSome) ∧
    (∀ s x, parseRow row = some s → row.getD 0 none = some x →
      s.time = x / 1000) ∧
    (∀ s, parseRow row = some s →
      row.getD 1 none = some s.yaw ∧ row.getD 2 none = some s.pitch ∧
      row.getD 3 none = some s.roll ∧ row.getD 4 none = some s.accel_x ∧
      row.getD 5 none = some s.accel_y ∧
      row.getD 6 none = some s.accel_z) ∧
    ((parse_csv (hdr :: rows)).times.length =
      rows.countP fun r => (parseRow r).isSome) ∧
    ((∀ r ∈ pre, (parseRow r).isSome) → (∀ r ∈ post, (parseRow r).isSome) →
      parseRow row = none →
      (parse_csv (hdr :: (pre ++ row :: post))).times.length =
        pre.length + post.length) := by
  refine ⟨rfl, ?_, ?_, ?_, ?_, ?_⟩
  · rw [parseRow_isSome_iff]
    constructor
    · rintro ⟨h7, a0, a1, a2, a3, a4, a5, a6⟩
      refine ⟨h7, ?_⟩
      intro j hj
      interval_cases j <;> assumption
    · rintro ⟨h7, hall⟩
      exact ⟨h7, hall 0 (by omega), hall 1 (by omega), hall 2 (by omega),
        hall 3 (by omega), hall 4 (by omega), hall 5 (by omega),
        hall 6 (by omega)⟩
  · intro s x hs hx
    have h0 := (parseRow_fields row s hs).1
    rw [hx] at h0
    have : x = s.time * 1000 := by exact Option.some.inj h0
    rw [this]
    norm_num
  · intro s hs
    exact (parseRow_fields row s hs).2
  · simp only [parse_csv, List.drop_succ_cons, List.drop_zero,
      List.length_map]
    exact length_filterMap_eq_countP rows
  · intro hpre hpost hbad
    simp only [parse_csv, List.drop_succ_cons, List.drop_zero,
      List.length_map]
    rw [List.filterMap_append, List.filterMap_cons, hbad,
      List.length_append]
    rw [filterMap_length_of_all_isSome pre hpre,
      filterMap_length_of_all_isSome post hpost]

/-- Witness for C4: one malformed row between two valid rows yields
exactly two samples. -/
theorem parse_csv_row_filtering_witness :
    (parse_csv
      [[none, none, none, none, none, none, none],
       [some 1, some 2, some 3, some 4, some 5, some 6, some 7],
       [none, some 2, some 3, some 4, some 5, some 6, some 7],
       [some 8, some 2, some 3, some 4, some 5, some 6, some 7]]).times.length
      = 1 + 1 := by
  have h := parse_csv_row_filtering
    [none, none, none, none, none, none, none]
    [none, none, none, none, none, none, none]
    [none, some 2, some 3, some 4, some 5, some 6, some 7]
    []
    [[some 1, some 2, some 3, some 4, some 5, some 6, some 7]]
    [[some 8, some 2, some 3, some 4, some 5, some 6, some 7]]
  have h2 := h.2.2.2.2.2
    (by intro r hr; simp at hr; subst hr; simp [parseRow])
    (by intro r hr; simp at hr; subst hr; simp [parseRow])
    (by simp [parseRow])
  simpa using h2

/-- C5: exit status is 0 on success and non-zero when the input path does
not exist (decided before the file content matters) or when parsing keeps
zero rows; in both failure cases nothing is written, and an output file
exists exactly when the exit status is 0. -/
theorem exit_status_spec (lines lines2 : List Row) :
    (run false lines = run false lines2) ∧
    (run false lines = RunResult.fileNotFound) ∧
    (exitCode (run false lines) ≠ 0 ∧
      outputWritten (run false lines) = false) ∧
    ((parse_csv lines).times.length = 0 →
      exitCode (run true lines) ≠ 0 ∧
      outputWritten (run true lines) = false) ∧
    ((parse_csv lines).times.length ≠ 0 →
      exitCode (run true lines) = 0 ∧
      outputWritten (run true lines) = true) ∧
    (∀ e, outputWritten (run e lines) = true ↔
      exitCode (run e lines) = 0) := by
  refine ⟨rfl, rfl, ⟨by simp [run, exitCode], by simp [run, outputWritten]⟩,
    ?_, ?_, ?_⟩
  · intro h0
    simp [run, generate_graphs, h0, exitCode, outputWritten]
  · intro h0
    simp [run, generate_graphs, h0, exitCode, outputWritten]
  · intro e
    cases e with
    | false => simp [run, exitCode, outputWritten]
    | true =>
      rcases hg : generate_graphs lines with _ | c <;>
        simp [run, hg, exitCode, outputWritten]

/-- Witness for C5: a file whose only data row is malformed exits
non-zero with no output, and a file with a valid row exits 0 with
output. -/
theorem exit_status_spec_witness :
    exitCode (run true
      [[none, none, none, none, none, none, none],
       [none, some 1, some 2, some 3, some 4, some 5, some 6]]) ≠ 0 ∧
    exitCode (run true
      [[none, none, none, none, none, none, none],
       [some 2000, some 1, some 2, some 3, some 4, some 5, some 6]]) = 0 := by
  constructor
  · exact (((exit_status_spec
      [[none, none, none, none, none, none, none],
       [none, some 1, some 2, some 3, some 4, some 5, some 6]]
      []).2.2.2.1) (by simp [parse_csv, parseRow])).1
  · exact (((exit_status_spec
      [[none, none, none, none, none, none, none],
       [some 2000, some 1, some 2, some 3, some 4, some 5, some 6]]
      []).2.2.2.2.1) (by simp [parse_csv, parseRow])).1

/-- C6: the seven parsed arrays have equal length and are aligned by
index: entry i of every array comes from the same kept row, and the kept
rows form a sublist (in input order) of the data rows. -/
theorem parse_alignment_spec (lines : List Row) :
    ((parse_csv lines).yaws.length = (parse_csv lines).times.length ∧
     (parse_csv lines).pitches.length = (parse_csv lines).times.length ∧
     (parse_csv lines).rolls.length = (parse_csv lines).times.length ∧
     (parse_csv lines).accel_x.length = (parse_csv lines).times.length ∧
     (parse_csv lines).accel_y.length = (parse_csv lines).times.length ∧
     (parse_csv lines).accel_z.length = (parse_csv lines).times.length) ∧
    List.Sublist (keptRows lines) (lines.drop 1) ∧
    (∀ i, i < (parse_csv lines).times.length →
      ∃ row s, (keptRows lines)[i]? = some row ∧ parseRow row = some s ∧
        (parse_csv lines).times[i]? = some s.time ∧
        (parse_csv lines).yaws[i]? = some s.yaw ∧
        (parse_csv lines).pitches[i]? = some s.pitch ∧
        (parse_csv lines).rolls[i]? = some s.roll ∧
        (parse_csv lines).accel_x[i]? = some s.accel_x ∧
        (parse_csv lines).accel_y[i]? = some s.accel_y ∧
        (parse_csv lines).accel_z[i]? = some s.accel_z) := by
  refine ⟨⟨by simp [parse_csv], by simp [parse_csv], by simp [parse_csv],
    by simp [parse_csv], by simp [parse_csv], by simp [parse_csv]⟩,
    List.filter_sublist _, ?_⟩
  intro i hi
  have hlen : i < ((lines.drop 1).filterMap parseRow).length := by
    simpa [parse_csv] using hi
  obtain ⟨row, s, h1, h2, h3⟩ := filterMap_filter_getElem (lines.drop 1) i hlen
  refine ⟨row, s, h1, h2, ?_, ?_, ?_, ?_, ?_, ?_, ?_⟩ <;>
  · simp only [parse_csv, List.getElem?_map]
    rw [h3]
    rfl

/-- Witness for C6 on a header line followed by one valid row. -/
theorem parse_alignment_spec_witness :
    ((keptRows
      [[none, none, none, none, none, none, none],
       [some 2000, some 1, some 2, some 3, some 4, some 5, some 6]])[0]?
        ).isSome = true := by
  obtain ⟨row, s, h1, -⟩ := (parse_alignment_spec
    [[none, none, none, none, none, none, none],
     [some 2000, some 1, some 2, some 3, some 4, some 5, some 6]]).2.2 0
    (by simp [parse_csv, parseRow])
  rw [h1]
  rfl

/-- The header line and the two data rows of the concrete scenario in the
spec: (0,0,0,0,1,0,0) and (1000,90,0,0,0,1,0). -/
noncomputable def c7_lines : List Row :=
  [[none, none, none, none, none, none, none],
   [some 0, some 0, some 0, some 0, some 1, some 0, some 0],
   [some 1000, some 90, some 0, some 0, some 0, some 1, some 0]]

lemma c7_parse :
    parse_csv c7_lines =
      ⟨[0, 1], [0, 90], [0, 0], [0, 0], [1, 0], [0, 1], [0, 0]⟩ := by
  simp only [parse_csv, c7_lines, parseRow, List.drop_succ_cons,
    List.drop_zero, List.filterMap_cons]
  norm_num [List.getD]

lemma c7_chart :
    generate_graphs c7_lines = some
      { times_norm := [0, 1], net_acc := [1, 1], jerk := [0],
        jerk_times_norm := [1], accel_x := [1, 0], accel_y := [0, 1],
        accel_z := [0, 0], yaws := [0, 90], pitches := [0, 0],
        rolls := [0, 0], yaw_rate := [90], pitch_rate := [0],
        roll_rate := [0], deriv_times_norm := [1] } := by
  rw [generate_graphs, c7_parse]
  norm_num [calculate_net_acceleration, calculate_net_jerk,
    calculate_angular_velocities, diff, List.zipWith3, List.headI,
    Real.sqrt_one]

/-- C7 counterexample: on the concrete scenario the normalized
sample-aligned time axis is [0, 1], not the singleton [0] stated in the
claim. -/
theorem c7_times_norm_counterexample :
    (generate_graphs c7_lines).map ChartData.times_norm ≠
      some [(0:ℝ)] := by
  rw [c7_chart]
  simp

/-- C7 amended: on the concrete scenario net_acc = [1, 1], jerk = [0],
yaw_rate = [90], normalized times = [0, 1] for the accel series and [1]
for the derivative series. -/
theorem c7_concrete_scenario :
    (generate_graphs c7_lines).map (fun c =>
      (c.net_acc, c.jerk, c.yaw_rate, c.times_norm, c.deriv_times_norm)) =
    some ([1, 1], [0], [90], [0, 1], [1]) := by
  rw [c7_chart]
  rfl

end Swingpal
